import Mathlib

/-!
Shallow embedding of the scene-graph transform and shader-state pipeline of
`SceneManager.cpp` (OpenGL interactive scene renderer).

The registry state (`m_textureIDs` with `m_loadedTextures`, and
`m_objectMaterials`) is modelled by Lean lists; the shader-uniform channel
(`ShaderManager`, reached through the possibly-null pointer
`m_pShaderManager`) is modelled as an append-only trace of named uniform
writes, where the current value of a uniform is the last write with that
name. GPU calls relevant to texture teardown are modelled as an explicit
call trace. Scalar shader values are embedded as rationals; the model
matrix, which involves trigonometry of the rotation angles, is embedded as
a real 4x4 matrix.
-/

namespace SceneMgr

/-- One entry of `m_textureIDs`: a GPU texture name and its tag. -/
structure TextureEntry where
  ID : Nat
  tag : String
deriving DecidableEq

/-- The `OBJECT_MATERIAL` struct (field order as in the source header usage). -/
structure OBJECT_MATERIAL where
  ambientColor : ℚ × ℚ × ℚ
  ambientStrength : ℚ
  diffuseColor : ℚ × ℚ × ℚ
  specularColor : ℚ × ℚ × ℚ
  shininess : ℚ
  tag : String
deriving DecidableEq

/-- A value written through the shader-uniform sink (`ShaderManager::set*Value`). -/
inductive UniformValue where
  | int (value : Int)
  | float (value : ℚ)
  | vec2 (x y : ℚ)
  | vec3 (x y z : ℚ)
  | vec4 (x y z w : ℚ)
  | sampler2D (slot : Int)
  | mat4 (value : Matrix (Fin 4) (Fin 4) ℝ)

/-- A single named write into the shader-uniform channel. -/
structure UniformWrite where
  name : String
  value : UniformValue

/-- The primitive meshes of the external mesh library that the scene draws. -/
inductive MeshKind where
  | planeMesh | boxMesh | cylinderMesh | taperedCylinderMesh | torusMesh | sphereMesh
deriving DecidableEq

/-- The ten hardcoded scene objects, one per `Render*` routine. -/
inductive SceneObjectId where
  | plane | mugBody | mugHandle | monitorScreen | monitorBase | monitorStand
  | mouse | keyboard | book1 | book2
deriving DecidableEq

/-- One issued draw call: which object routine drew which primitive mesh. -/
structure DrawEvent where
  obj : SceneObjectId
  mesh : MeshKind
deriving DecidableEq

/-- A GPU texture-management call issued by the registry. -/
inductive GLCall where
  | genTextures (count : Nat)
  | deleteTextures (handles : List Nat)
deriving DecidableEq

/-- The state of a `SceneManager`: whether `m_pShaderManager` is non-null,
the trace of uniform writes issued so far, the texture registry
(`m_textureIDs` up to `m_loadedTextures`), the material registry
(`m_objectMaterials`), and the trace of draw calls issued so far. -/
structure SceneState where
  hasShader : Bool
  uniforms : List UniformWrite
  textureIDs : List TextureEntry
  objectMaterials : List OBJECT_MATERIAL
  draws : List DrawEvent

/-- Current value of a uniform: the last write in the trace with this name. -/
def uniformValue (st : SceneState) (name : String) : Option UniformValue :=
  (st.uniforms.reverse.find? fun w => w.name = name).map UniformWrite.value

/-- The outcome of the external image decoder (`stbi_load`):
dimensions and channel count of the decoded image. -/
structure DecodedImage where
  width : Int
  height : Int
  colorChannels : Int
deriving DecidableEq

/-- `SceneManager::CreateGLTexture`: given the decoder outcome (`none` =
the file could not be decoded) and the texture name that `glGenTextures`
would produce, either registers a new entry at the end of the registry and
returns true, or returns false leaving the registry untouched.  Channel
counts other than 3 and 4 hit the explicit `else` branch and fail. -/
def CreateGLTexture (st : SceneState) (decoded : Option DecodedImage)
    (textureID : Nat) (tag : String) : Bool × SceneState :=
  match decoded with
  | some image =>
      if image.colorChannels = 3 then
        (true, { st with textureIDs := st.textureIDs ++ [⟨textureID, tag⟩] })
      else if image.colorChannels = 4 then
        (true, { st with textureIDs := st.textureIDs ++ [⟨textureID, tag⟩] })
      else
        (false, st)
  | none => (false, st)

/-- `SceneManager::DestroyGLTextures`: for each loaded entry the source
executes `glGenTextures(1, &m_textureIDs[i].ID)`, which emits one
gen-textures call and overwrites the stored handle with a freshly
allocated texture name (`freshID i`).  Returns the GL call trace and the
updated registry. -/
def DestroyGLTextures (entries : List TextureEntry) (freshID : Nat → Nat) :
    List GLCall × List TextureEntry :=
  (entries.map fun _ => GLCall.genTextures 1,
   entries.enum.map fun p => { p.2 with ID := freshID p.1 })

/-- The while loop of `SceneManager::FindTextureSlot`, scanning from
`index`, stopping at the first entry whose tag matches. -/
def findTextureSlotLoop (entries : List TextureEntry) (tag : String)
    (index : Nat) : Int :=
  match entries with
  | [] => -1
  | e :: rest =>
      if e.tag = tag then Int.ofNat index
      else findTextureSlotLoop rest tag (index + 1)

/-- `SceneManager::FindTextureSlot`: linear scan for the tag, returning the
index of the first match, or the sentinel -1. -/
def FindTextureSlot (entries : List TextureEntry) (tag : String) : Int :=
  findTextureSlotLoop entries tag 0

/-- The field-wise copy performed when `FindMaterial` hits a matching
entry: all fields except `tag` are copied into the out-parameter. -/
def copyMaterialInto (found material : OBJECT_MATERIAL) : OBJECT_MATERIAL :=
  { material with
    ambientColor := found.ambientColor
    ambientStrength := found.ambientStrength
    diffuseColor := found.diffuseColor
    specularColor := found.specularColor
    shininess := found.shininess }

/-- The while loop of `SceneManager::FindMaterial`: scan for the first
matching tag; on a match copy its fields into the out-parameter, otherwise
leave the out-parameter as it was. -/
def findMaterialLoop (materials : List OBJECT_MATERIAL) (tag : String)
    (material : OBJECT_MATERIAL) : OBJECT_MATERIAL :=
  match materials with
  | [] => material
  | m :: rest =>
      if m.tag = tag then copyMaterialInto m material
      else findMaterialLoop rest tag material

/-- `SceneManager::FindMaterial`: returns false immediately on an empty
registry; otherwise runs the scan loop and returns true regardless of
whether the loop found the tag (the source's return value does not depend
on `bFound`). -/
def FindMaterial (materials : List OBJECT_MATERIAL) (tag : String)
    (material : OBJECT_MATERIAL) : Bool × OBJECT_MATERIAL :=
  if materials.length = 0 then (false, material)
  else (true, findMaterialLoop materials tag material)

/-- `glm::radians`: degrees to radians. -/
noncomputable def radians (degrees : ℝ) : ℝ := degrees * (Real.pi / 180)

/-- `glm::scale(s)` as a 4x4 homogeneous matrix. -/
noncomputable def glmScale (s : ℝ × ℝ × ℝ) : Matrix (Fin 4) (Fin 4) ℝ :=
  Matrix.of ![![s.1, 0, 0, 0], ![0, s.2.1, 0, 0], ![0, 0, s.2.2, 0], ![0, 0, 0, 1]]

/-- `glm::rotate(angle, vec3(1,0,0))`: rotation about the X axis. -/
noncomputable def glmRotateX (angle : ℝ) : Matrix (Fin 4) (Fin 4) ℝ :=
  Matrix.of ![![1, 0, 0, 0],
              ![0, Real.cos angle, -Real.sin angle, 0],
              ![0, Real.sin angle, Real.cos angle, 0],
              ![0, 0, 0, 1]]

/-- `glm::rotate(angle, vec3(0,1,0))`: rotation about the Y axis. -/
noncomputable def glmRotateY (angle : ℝ) : Matrix (Fin 4) (Fin 4) ℝ :=
  Matrix.of ![![Real.cos angle, 0, Real.sin angle, 0],
              ![0, 1, 0, 0],
              ![-Real.sin angle, 0, Real.cos angle, 0],
              ![0, 0, 0, 1]]

/-- `glm::rotate(angle, vec3(0,0,1))`: rotation about the Z axis. -/
noncomputable def glmRotateZ (angle : ℝ) : Matrix (Fin 4) (Fin 4) ℝ :=
  Matrix.of ![![Real.cos angle, -Real.sin angle, 0, 0],
              ![Real.sin angle, Real.cos angle, 0, 0],
              ![0, 0, 1, 0],
              ![0, 0, 0, 1]]

/-- `glm::translate(p)` as a 4x4 homogeneous matrix. -/
noncomputable def glmTranslate (p : ℝ × ℝ × ℝ) : Matrix (Fin 4) (Fin 4) ℝ :=
  Matrix.of ![![1, 0, 0, p.1], ![0, 1, 0, p.2.1], ![0, 0, 1, p.2.2], ![0, 0, 0, 1]]

/-- `SceneManager::SetTransformations`: build scale, per-axis rotations
(angles in degrees, converted by `glm::radians`) and translation, compose
them as `translation * rotationX * rotationY * rotationZ * scale`, and, if
the shader sink is non-null, publish the result to the `"model"` uniform. -/
noncomputable def SetTransformations (st : SceneState) (scaleXYZ : ℝ × ℝ × ℝ)
    (XrotationDegrees YrotationDegrees ZrotationDegrees : ℝ)
    (positionXYZ : ℝ × ℝ × ℝ) : SceneState :=
  let scale := glmScale scaleXYZ
  let rotationX := glmRotateX (radians XrotationDegrees)
  let rotationY := glmRotateY (radians YrotationDegrees)
  let rotationZ := glmRotateZ (radians ZrotationDegrees)
  let translation := glmTranslate positionXYZ
  let modelView := translation * rotationX * rotationY * rotationZ * scale
  if st.hasShader then
    { st with uniforms := st.uniforms ++ [⟨"model", UniformValue.mat4 modelView⟩] }
  else st

/-- `SceneManager::SetShaderColor`: if the shader sink is non-null, write
the `"bUseTexture"` flag to false (int 0, by C++ bool-to-int conversion)
and then the color to `"objectColor"`. -/
def SetShaderColor (st : SceneState)
    (redColorValue greenColorValue blueColorValue alphaValue : ℚ) : SceneState :=
  if st.hasShader then
    { st with uniforms := st.uniforms ++
        [⟨"bUseTexture", UniformValue.int 0⟩,
         ⟨"objectColor",
          UniformValue.vec4 redColorValue greenColorValue blueColorValue alphaValue⟩] }
  else st

/-- `SceneManager::SetShaderTexture`: if the shader sink is non-null, write
the `"bUseTexture"` flag to true (int 1), resolve the tag through
`FindTextureSlot`, and write the resolved slot to `"objectTexture"`. -/
def SetShaderTexture (st : SceneState) (textureTag : String) : SceneState :=
  if st.hasShader then
    let textureID := FindTextureSlot st.textureIDs textureTag
    { st with uniforms := st.uniforms ++
        [⟨"bUseTexture", UniformValue.int 1⟩,
         ⟨"objectTexture", UniformValue.sampler2D textureID⟩] }
  else st

/-- `SceneManager::SetTextureUVScale`: if the shader sink is non-null,
write the two-component scale to `"UVscale"`. -/
def SetTextureUVScale (st : SceneState) (u v : ℚ) : SceneState :=
  if st.hasShader then
    { st with uniforms := st.uniforms ++ [⟨"UVscale", UniformValue.vec2 u v⟩] }
  else st

/-- `SceneManager::SetShaderMaterial`: only if at least one material has
been defined, run `FindMaterial` on an uninitialized local
(`localMaterial` models the indeterminate initial bytes of the C++ local)
and, if it reported success, publish the five material fields as
individual uniforms.  Note the source performs no null check on the
shader sink here. -/
def SetShaderMaterial (st : SceneState) (materialTag : String)
    (localMaterial : OBJECT_MATERIAL) : SceneState :=
  if 0 < st.objectMaterials.length then
    let result := FindMaterial st.objectMaterials materialTag localMaterial
    if result.1 = true then
      { st with uniforms := st.uniforms ++
          [⟨"material.ambientColor",
            UniformValue.vec3 result.2.ambientColor.1 result.2.ambientColor.2.1
              result.2.ambientColor.2.2⟩,
           ⟨"material.ambientStrength", UniformValue.float result.2.ambientStrength⟩,
           ⟨"material.diffuseColor",
            UniformValue.vec3 result.2.diffuseColor.1 result.2.diffuseColor.2.1
              result.2.diffuseColor.2.2⟩,
           ⟨"material.specularColor",
            UniformValue.vec3 result.2.specularColor.1 result.2.specularColor.2.1
              result.2.specularColor.2.2⟩,
           ⟨"material.shininess", UniformValue.float result.2.shininess⟩] }
    else st
  else st

/-- `SceneManager::RenderPlane`: transform, material "wood", texture
"plane", UV scale 10x10, draw the plane mesh. -/
noncomputable def RenderPlane (st : SceneState)
    (localMaterial : OBJECT_MATERIAL) : SceneState :=
  let st1 := SetTransformations st (50, 1, 50) 0 0 0 (0, -1, 0)
  let st2 := SetShaderMaterial st1 "wood" localMaterial
  let st3 := SetShaderTexture st2 "plane"
  let st4 := SetTextureUVScale st3 10 10
  { st4 with draws := st4.draws ++ [⟨SceneObjectId.plane, MeshKind.planeMesh⟩] }

/-- `SceneManager::RenderMugBody`: transform (180 degrees about X),
texture "mug", material "glassy", UV scale 2.25x2.25, draw the tapered
cylinder mesh. -/
noncomputable def RenderMugBody (st : SceneState)
    (localMaterial : OBJECT_MATERIAL) : SceneState :=
  let st1 := SetTransformations st (1, 1.5, 1) 180 0 0 (3, 0.5, 3)
  let st2 := SetShaderTexture st1 "mug"
  let st3 := SetShaderMaterial st2 "glassy" localMaterial
  let st4 := SetTextureUVScale st3 2.25 2.25
  { st4 with draws := st4.draws ++ [⟨SceneObjectId.mugBody, MeshKind.taperedCylinderMesh⟩] }

/-- `SceneManager::RenderMugHandle`: transform, texture "handle", material
"glassy", UV scale 1x1, draw the torus mesh. -/
noncomputable def RenderMugHandle (st : SceneState)
    (localMaterial : OBJECT_MATERIAL) : SceneState :=
  let st1 := SetTransformations st (0.5, 0.4, 0.5) 0 0 0 (4, -0.1, 3.25)
  let st2 := SetShaderTexture st1 "handle"
  let st3 := SetShaderMaterial st2 "glassy" localMaterial
  let st4 := SetTextureUVScale st3 1 1
  { st4 with draws := st4.draws ++ [⟨SceneObjectId.mugHandle, MeshKind.torusMesh⟩] }

/-- `SceneManager::RenderMonitorScreen`: transform, texture "screen",
material "glassy", UV scale 1x1, draw the box mesh. -/
noncomputable def RenderMonitorScreen (st : SceneState)
    (localMaterial : OBJECT_MATERIAL) : SceneState :=
  let st1 := SetTransformations st (9, 4, 0.2) 0 0 0 (0, 3, 0)
  let st2 := SetShaderTexture st1 "screen"
  let st3 := SetShaderMaterial st2 "glassy" localMaterial
  let st4 := SetTextureUVScale st3 1 1
  { st4 with draws := st4.draws ++ [⟨SceneObjectId.monitorScreen, MeshKind.boxMesh⟩] }

/-- `SceneManager::RenderMonitorStand`: transform, texture "stand",
material "metal", UV scale 4x4, draw the box mesh. -/
noncomputable def RenderMonitorStand (st : SceneState)
    (localMaterial : OBJECT_MATERIAL) : SceneState :=
  let st1 := SetTransformations st (1, 0.5, 1.5) 0 0 0 (0, 0.75, 0)
  let st2 := SetShaderTexture st1 "stand"
  let st3 := SetShaderMaterial st2 "metal" localMaterial
  let st4 := SetTextureUVScale st3 4 4
  { st4 with draws := st4.draws ++ [⟨SceneObjectId.monitorStand, MeshKind.boxMesh⟩] }

/-- `SceneManager::RenderMonitorBase`: transform, texture "base", material
"metal", UV scale 5x5, draw the tapered cylinder mesh. -/
noncomputable def RenderMonitorBase (st : SceneState)
    (localMaterial : OBJECT_MATERIAL) : SceneState :=
  let st1 := SetTransformations st (1.25, 0.2, 2) 0 0 0 (0, 0.5, 0)
  let st2 := SetShaderTexture st1 "base"
  let st3 := SetShaderMaterial st2 "metal" localMaterial
  let st4 := SetTextureUVScale st3 5 5
  { st4 with draws := st4.draws ++ [⟨SceneObjectId.monitorBase, MeshKind.taperedCylinderMesh⟩] }

/-- `SceneManager::RenderBook1`: transform, flat color, draw the box mesh. -/
noncomputable def RenderBook1 (st : SceneState) : SceneState :=
  let st1 := SetTransformations st (2, 0.5, 3) 0 0 0 (-6, 0.5, 1)
  let st2 := SetShaderColor st1 0.5 0.8 1 1
  { st2 with draws := st2.draws ++ [⟨SceneObjectId.book1, MeshKind.boxMesh⟩] }

/-- `SceneManager::RenderBook2`: transform, flat color, draw the box mesh. -/
noncomputable def RenderBook2 (st : SceneState) : SceneState :=
  let st1 := SetTransformations st (2, 0.5, 3) 0 0 0 (-6, 1, 1)
  let st2 := SetShaderColor st1 0.7 0.4 0.1 1
  { st2 with draws := st2.draws ++ [⟨SceneObjectId.book2, MeshKind.boxMesh⟩] }

/-- `SceneManager::RenderKeyboard`: transform, flat color, draw the box mesh. -/
noncomputable def RenderKeyboard (st : SceneState) : SceneState :=
  let st1 := SetTransformations st (7, 0.2, 1) 0 0 0 (0, 0.2, 2)
  let st2 := SetShaderColor st1 0.7 0.4 0.1 1
  { st2 with draws := st2.draws ++ [⟨SceneObjectId.keyboard, MeshKind.boxMesh⟩] }

/-- `SceneManager::RenderMouse`: transform, flat color, draw the sphere mesh. -/
noncomputable def RenderMouse (st : SceneState) : SceneState :=
  let st1 := SetTransformations st (0.5, 0.3, 0.8) 0 0 0 (-3, -0.5, 2.5)
  let st2 := SetShaderColor st1 0.7 0.4 0.1 1
  { st2 with draws := st2.draws ++ [⟨SceneObjectId.mouse, MeshKind.sphereMesh⟩] }

/-- `SceneManager::RenderScene`: the ten object routines, in source order.
`localMaterial` models the indeterminate initial bytes of the
uninitialized `OBJECT_MATERIAL` locals in the routines. -/
noncomputable def RenderScene (st : SceneState)
    (localMaterial : OBJECT_MATERIAL) : SceneState :=
  let st1 := RenderPlane st localMaterial
  let st2 := RenderMugBody st1 localMaterial
  let st3 := RenderMugHandle st2 localMaterial
  let st4 := RenderMonitorScreen st3 localMaterial
  let st5 := RenderMonitorBase st4 localMaterial
  let st6 := RenderMonitorStand st5 localMaterial
  let st7 := RenderMouse st6
  let st8 := RenderKeyboard st7
  let st9 := RenderBook1 st8
  RenderBook2 st9

/-! ## Helper lemmas -/

theorem uniformValue_mk (hs : Bool) (u : List UniformWrite) (t : List TextureEntry)
    (m : List OBJECT_MATERIAL) (d : List DrawEvent) (name : String) :
    uniformValue ⟨hs, u, t, m, d⟩ name =
      (u.reverse.find? fun w => w.name = name).map UniformWrite.value := rfl

/-! ## C10: setters with a null shader sink are no-ops -/

/-- C10: with the shader-uniform sink reference null, `SetTransformations`,
`SetShaderColor`, `SetShaderTexture` and `SetTextureUVScale` perform no
write at all: the state after each call equals the state before. -/
theorem nullSink_setters_are_noops
    (u : List UniformWrite) (t : List TextureEntry) (m : List OBJECT_MATERIAL)
    (d : List DrawEvent) (s : ℝ × ℝ × ℝ) (xd yd zd : ℝ) (p : ℝ × ℝ × ℝ)
    (r g b a : ℚ) (tag : String) (uScale vScale : ℚ) :
    SetTransformations ⟨false, u, t, m, d⟩ s xd yd zd p = ⟨false, u, t, m, d⟩ ∧
    SetShaderColor ⟨false, u, t, m, d⟩ r g b a = ⟨false, u, t, m, d⟩ ∧
    SetShaderTexture ⟨false, u, t, m, d⟩ tag = ⟨false, u, t, m, d⟩ ∧
    SetTextureUVScale ⟨false, u, t, m, d⟩ uScale vScale = ⟨false, u, t, m, d⟩ := by
  refine ⟨?_, ?_, ?_, ?_⟩ <;>
    simp [SetTransformations, SetShaderColor, SetShaderTexture, SetTextureUVScale]

/-! ## C7: SetShaderMaterial with an empty material registry is a no-op -/

/-- C7: for every tag (and every value of the uninitialized local), when
the material registry is empty, `SetShaderMaterial` writes no uniform and
leaves the whole state unchanged. -/
theorem setShaderMaterial_empty_registry_noop
    (hs : Bool) (u : List UniformWrite) (t : List TextureEntry) (d : List DrawEvent)
    (tag : String) (localMaterial : OBJECT_MATERIAL) :
    SetShaderMaterial ⟨hs, u, t, [], d⟩ tag localMaterial = ⟨hs, u, t, [], d⟩ := by
  simp [SetShaderMaterial]

/-! ## C3: unsupported channel counts fail and leave the registry unchanged -/

/-- C3: for every registry state and every decoded image whose channel
count is neither 3 nor 4, `CreateGLTexture` returns failure and the
registry (entry list and loaded-texture count) is exactly as before. -/
theorem createGLTexture_unsupported_channels_fails
    (st : SceneState) (image : DecodedImage) (textureID : Nat) (tag : String)
    (h3 : image.colorChannels ≠ 3) (h4 : image.colorChannels ≠ 4) :
    CreateGLTexture st (some image) textureID tag = (false, st) ∧
    (CreateGLTexture st (some image) textureID tag).2.textureIDs = st.textureIDs ∧
    (CreateGLTexture st (some image) textureID tag).2.textureIDs.length
      = st.textureIDs.length := by
  simp [CreateGLTexture, h3, h4]

/-- Witness for C3 at a concrete two-channel image and a one-entry registry. -/
theorem createGLTexture_unsupported_channels_fails_witness :
    ((⟨10, 10, 2⟩ : DecodedImage).colorChannels ≠ 3) ∧
    ((⟨10, 10, 2⟩ : DecodedImage).colorChannels ≠ 4) ∧
    CreateGLTexture ⟨true, [], [⟨5, "stand"⟩], [], []⟩ (some ⟨10, 10, 2⟩) 7 "mug"
      = (false, ⟨true, [], [⟨5, "stand"⟩], [], []⟩) :=
  ⟨by decide, by decide,
   (createGLTexture_unsupported_channels_fails ⟨true, [], [⟨5, "stand"⟩], [], []⟩
      ⟨10, 10, 2⟩ 7 "mug" (by decide) (by decide)).1⟩

/-! ## C1: SetShaderColor then SetShaderTexture, last write wins -/

/-- C1: with a non-null shader sink, `SetShaderColor` writes the
`"bUseTexture"` flag false (int 0) and the color, and a subsequent
`SetShaderTexture` overwrites the flag to true (int 1): the last write
wins, with no per-draw isolation, whatever the prior uniform state. -/
theorem setShaderColor_then_setShaderTexture_flag_true
    (u : List UniformWrite) (t : List TextureEntry) (m : List OBJECT_MATERIAL)
    (d : List DrawEvent) (r g b a : ℚ) (tag : String) :
    uniformValue (SetShaderColor ⟨true, u, t, m, d⟩ r g b a) "bUseTexture"
      = some (UniformValue.int 0) ∧
    uniformValue (SetShaderColor ⟨true, u, t, m, d⟩ r g b a) "objectColor"
      = some (UniformValue.vec4 r g b a) ∧
    uniformValue (SetShaderTexture (SetShaderColor ⟨true, u, t, m, d⟩ r g b a) tag)
        "bUseTexture" = some (UniformValue.int 1) := by
  refine ⟨?_, ?_, ?_⟩ <;>
    simp [SetShaderColor, SetShaderTexture, uniformValue, List.find?]

/-! ## FindMaterial scan-loop lemmas -/

theorem findMaterialLoop_of_miss (tag : String) (material : OBJECT_MATERIAL) :
    ∀ materials : List OBJECT_MATERIAL, (∀ m ∈ materials, m.tag ≠ tag) →
      findMaterialLoop materials tag material = material
  | [], _ => rfl
  | m :: rest, hmiss => by
      simp only [findMaterialLoop]
      rw [if_neg (hmiss m (List.mem_cons_self m rest))]
      exact findMaterialLoop_of_miss tag material rest
        fun x hx => hmiss x (List.mem_cons_of_mem m hx)

theorem findMaterialLoop_of_find (tag : String) (material found : OBJECT_MATERIAL) :
    ∀ materials : List OBJECT_MATERIAL,
      materials.find? (fun m => m.tag = tag) = some found →
      findMaterialLoop materials tag material = copyMaterialInto found material
  | [], h => by simp at h
  | m :: rest, h => by
      by_cases hm : m.tag = tag
      · rw [List.find?_cons_of_pos rest (by simpa using hm)] at h
        cases h
        simp only [findMaterialLoop]
        rw [if_pos hm]
      · rw [List.find?_cons_of_neg rest (by simpa using hm)] at h
        simp only [findMaterialLoop]
        rw [if_neg hm]
        exact findMaterialLoop_of_find tag material found rest h

/-! ## C2: a missed tag on a non-empty registry still reports success -/

/-- C2: for every non-empty material registry and every tag matching no
registered material, `FindMaterial` returns true while leaving the
caller's output material struct completely untouched. -/
theorem findMaterial_miss_reports_success
    (materials : List OBJECT_MATERIAL) (tag : String) (material : OBJECT_MATERIAL)
    (hne : materials ≠ []) (hmiss : ∀ m ∈ materials, m.tag ≠ tag) :
    FindMaterial materials tag material = (true, material) := by
  rw [FindMaterial, if_neg fun hl => hne (List.length_eq_zero.mp hl),
      findMaterialLoop_of_miss tag material materials hmiss]

/-- Witness for C2: a one-entry registry and an absent tag. -/
theorem findMaterial_miss_reports_success_witness :
    ([⟨(1, 1, 1), 1, (1, 1, 1), (1, 1, 1), 1, "wood"⟩] : List OBJECT_MATERIAL) ≠ [] ∧
    (∀ m ∈ ([⟨(1, 1, 1), 1, (1, 1, 1), (1, 1, 1), 1, "wood"⟩] : List OBJECT_MATERIAL),
      m.tag ≠ "metal") ∧
    FindMaterial [⟨(1, 1, 1), 1, (1, 1, 1), (1, 1, 1), 1, "wood"⟩] "metal"
        ⟨(0, 0, 0), 0, (0, 0, 0), (0, 0, 0), 0, ""⟩
      = (true, ⟨(0, 0, 0), 0, (0, 0, 0), (0, 0, 0), 0, ""⟩) :=
  ⟨by decide, by decide,
   findMaterial_miss_reports_success _ "metal" _ (by decide) (by decide)⟩

/-! ## C6: empty registry fails; first matching entry wins -/

/-- C6: `FindMaterial` on an empty registry always returns failure; on a
registry in which the tag is present it returns success and the field
values of the first matching entry (so later entries sharing the tag are
unreachable). -/
theorem findMaterial_empty_fails_first_match_wins
    (tag : String) (material : OBJECT_MATERIAL)
    (materials : List OBJECT_MATERIAL) (found : OBJECT_MATERIAL) :
    FindMaterial [] tag material = (false, material) ∧
    (materials.find? (fun m => m.tag = tag) = some found →
      FindMaterial materials tag material = (true, copyMaterialInto found material)) := by
  refine ⟨rfl, fun h => ?_⟩
  have hne : materials ≠ [] := by rintro rfl; simp at h
  rw [FindMaterial, if_neg fun hl => hne (List.length_eq_zero.mp hl),
      findMaterialLoop_of_find tag material found materials h]

/-- Witness for C6: two entries share the tag "dup"; the lookup returns
the first entry's field values. -/
theorem findMaterial_empty_fails_first_match_wins_witness :
    FindMaterial [] "dup" ⟨(0, 0, 0), 0, (0, 0, 0), (0, 0, 0), 0, ""⟩
      = (false, ⟨(0, 0, 0), 0, (0, 0, 0), (0, 0, 0), 0, ""⟩) ∧
    (([⟨(1, 0, 0), 1, (1, 0, 0), (1, 0, 0), 1, "dup"⟩,
       ⟨(2, 0, 0), 2, (2, 0, 0), (2, 0, 0), 2, "dup"⟩] :
        List OBJECT_MATERIAL).find? (fun m => m.tag = "dup")
      = some ⟨(1, 0, 0), 1, (1, 0, 0), (1, 0, 0), 1, "dup"⟩) ∧
    FindMaterial
        [⟨(1, 0, 0), 1, (1, 0, 0), (1, 0, 0), 1, "dup"⟩,
         ⟨(2, 0, 0), 2, (2, 0, 0), (2, 0, 0), 2, "dup"⟩] "dup"
        ⟨(0, 0, 0), 0, (0, 0, 0), (0, 0, 0), 0, ""⟩
      = (true, ⟨(1, 0, 0), 1, (1, 0, 0), (1, 0, 0), 1, ""⟩) :=
  ⟨(findMaterial_empty_fails_first_match_wins "dup"
      ⟨(0, 0, 0), 0, (0, 0, 0), (0, 0, 0), 0, ""⟩ []
      ⟨(0, 0, 0), 0, (0, 0, 0), (0, 0, 0), 0, ""⟩).1,
   by decide,
   (findMaterial_empty_fails_first_match_wins "dup"
      ⟨(0, 0, 0), 0, (0, 0, 0), (0, 0, 0), 0, ""⟩
      [⟨(1, 0, 0), 1, (1, 0, 0), (1, 0, 0), 1, "dup"⟩,
       ⟨(2, 0, 0), 2, (2, 0, 0), (2, 0, 0), 2, "dup"⟩]
      ⟨(1, 0, 0), 1, (1, 0, 0), (1, 0, 0), 1, "dup"⟩).2 (by decide)⟩

/-! ## FindTextureSlot scan-loop lemmas -/

theorem findTextureSlotLoop_of_miss (tag : String) :
    ∀ (entries : List TextureEntry) (index : Nat),
      (∀ e ∈ entries, e.tag ≠ tag) → findTextureSlotLoop entries tag index = -1
  | [], _, _ => rfl
  | e :: rest, index, hmiss => by
      simp only [findTextureSlotLoop]
      rw [if_neg (hmiss e (List.mem_cons_self e rest))]
      exact findTextureSlotLoop_of_miss tag rest (index + 1)
        fun x hx => hmiss x (List.mem_cons_of_mem e hx)

theorem findTextureSlotLoop_of_get (tag : String) :
    ∀ (entries : List TextureEntry) (index : Nat),
      (entries.map TextureEntry.tag).Nodup →
      ∀ i : Fin entries.length, (entries.get i).tag = tag →
        findTextureSlotLoop entries tag index = Int.ofNat (index + (i : Nat))
  | [], _, _, i, _ => absurd i.isLt (by simp)
  | e :: rest, index, hnd, i, hget => by
      have hnd2 : e.tag ∉ rest.map TextureEntry.tag ∧ (rest.map TextureEntry.tag).Nodup := by
        rw [← List.nodup_cons]
        simpa using hnd
      rcases Fin.eq_zero_or_eq_succ i with hi | ⟨j, hi⟩
      · subst hi
        simp only [List.get] at hget
        simp only [findTextureSlotLoop]
        rw [if_pos hget]
        simp
      · subst hi
        have hjt : (rest.get j).tag = tag := by simpa using hget
        have hne : e.tag ≠ tag := by
          intro he
          exact hnd2.1 (he ▸ List.mem_map.mpr ⟨rest.get j, List.get_mem rest j j.isLt, hjt⟩)
        simp only [findTextureSlotLoop]
        rw [if_neg hne,
            findTextureSlotLoop_of_get tag rest (index + 1) hnd2.2 j hjt]
        congr 1
        simp [Fin.val_succ]
        omega

/-! ## C4: insertion-order slot assignment and lookup -/

/-- C4: a successful `CreateGLTexture` appends its entry at the end of the
registry, so the i-th successfully loaded entry sits at slot index i
(starting at 0); for any registry with pairwise-distinct tags,
`FindTextureSlot` returns the index assigned at insertion time for a
registered tag, and the sentinel -1 for any unregistered tag. -/
theorem findTextureSlot_insertion_order_spec
    (entries : List TextureEntry) (tag : String) :
    ((entries.map TextureEntry.tag).Nodup →
      ∀ i : Fin entries.length, (entries.get i).tag = tag →
        FindTextureSlot entries tag = Int.ofNat (i : Nat)) ∧
    ((∀ e ∈ entries, e.tag ≠ tag) → FindTextureSlot entries tag = -1) ∧
    (∀ (st : SceneState) (image : DecodedImage) (textureID : Nat),
      image.colorChannels = 3 ∨ image.colorChannels = 4 →
      (CreateGLTexture st (some image) textureID tag).2.textureIDs
        = st.textureIDs ++ [⟨textureID, tag⟩]) := by
  refine ⟨fun hnd i hget => ?_, fun h => ?_, ?_⟩
  · simpa [FindTextureSlot] using findTextureSlotLoop_of_get tag entries 0 hnd i hget
  · exact findTextureSlotLoop_of_miss tag entries 0 h
  · rintro st image textureID (h | h) <;> simp [CreateGLTexture, h]

/-- Witness for C4: two distinct-tag entries loaded in order, a hit on the
second tag, a miss, and a successful load appending at the end. -/
theorem findTextureSlot_insertion_order_spec_witness :
    (([⟨5, "stand"⟩, ⟨7, "mug"⟩] : List TextureEntry).map TextureEntry.tag).Nodup ∧
    FindTextureSlot [⟨5, "stand"⟩, ⟨7, "mug"⟩] "mug" = Int.ofNat 1 ∧
    FindTextureSlot [⟨5, "stand"⟩, ⟨7, "mug"⟩] "screen" = -1 ∧
    (CreateGLTexture ⟨true, [], [⟨5, "stand"⟩], [], []⟩ (some ⟨8, 8, 4⟩) 9 "mug").2.textureIDs
      = [⟨5, "stand"⟩] ++ [⟨9, "mug"⟩] :=
  ⟨by decide,
   (findTextureSlot_insertion_order_spec [⟨5, "stand"⟩, ⟨7, "mug"⟩] "mug").1
     (by decide) ⟨1, by decide⟩ (by decide),
   (findTextureSlot_insertion_order_spec [⟨5, "stand"⟩, ⟨7, "mug"⟩] "screen").2.1
     (by decide),
   (findTextureSlot_insertion_order_spec [⟨5, "stand"⟩] "mug").2.2
     ⟨true, [], [⟨5, "stand"⟩], [], []⟩ ⟨8, 8, 4⟩ 9 (Or.inr (by decide))⟩

/-! ## C9: the teardown loop generates textures instead of deleting them -/

/-- C9 (code bug): for every registry state, the GL call trace produced by
`DestroyGLTextures` consists of one `glGenTextures(1, ...)` call per
loaded entry and contains not a single delete call — the deletion the
method's own documentation promises is never issued. -/
theorem destroyGLTextures_issues_gen_never_delete
    (entries : List TextureEntry) (freshID : Nat → Nat) :
    (DestroyGLTextures entries freshID).1
      = entries.map (fun _ => GLCall.genTextures 1) ∧
    (DestroyGLTextures entries freshID).1.countP
      (fun c => match c with
                | GLCall.deleteTextures _ => true
                | GLCall.genTextures _ => false) = 0 := by
  refine ⟨rfl, ?_⟩
  rw [List.countP_eq_zero]
  intro c hc
  simp only [DestroyGLTextures, List.mem_map] at hc
  obtain ⟨e, -, rfl⟩ := hc
  simp

/-! ## C8: RenderScene runs the fixed object list exactly once, in order -/

theorem draws_setTransformations (st : SceneState) (s : ℝ × ℝ × ℝ)
    (xd yd zd : ℝ) (p : ℝ × ℝ × ℝ) :
    (SetTransformations st s xd yd zd p).draws = st.draws := by
  simp only [SetTransformations]
  split <;> rfl

theorem draws_setShaderColor (st : SceneState) (r g b a : ℚ) :
    (SetShaderColor st r g b a).draws = st.draws := by
  simp only [SetShaderColor]
  split <;> rfl

theorem draws_setShaderTexture (st : SceneState) (tag : String) :
    (SetShaderTexture st tag).draws = st.draws := by
  simp only [SetShaderTexture]
  split <;> rfl

theorem draws_setTextureUVScale (st : SceneState) (u v : ℚ) :
    (SetTextureUVScale st u v).draws = st.draws := by
  simp only [SetTextureUVScale]
  split <;> rfl

theorem draws_setShaderMaterial (st : SceneState) (tag : String)
    (localMaterial : OBJECT_MATERIAL) :
    (SetShaderMaterial st tag localMaterial).draws = st.draws := by
  simp only [SetShaderMaterial]
  split
  · split <;> rfl
  · rfl

theorem draws_renderPlane (st : SceneState) (lm : OBJECT_MATERIAL) :
    (RenderPlane st lm).draws
      = st.draws ++ [⟨SceneObjectId.plane, MeshKind.planeMesh⟩] := by
  simp [RenderPlane, draws_setTransformations, draws_setShaderMaterial,
        draws_setShaderTexture, draws_setTextureUVScale]

theorem draws_renderMugBody (st : SceneState) (lm : OBJECT_MATERIAL) :
    (RenderMugBody st lm).draws
      = st.draws ++ [⟨SceneObjectId.mugBody, MeshKind.taperedCylinderMesh⟩] := by
  simp [RenderMugBody, draws_setTransformations, draws_setShaderMaterial,
        draws_setShaderTexture, draws_setTextureUVScale]

theorem draws_renderMugHandle (st : SceneState) (lm : OBJECT_MATERIAL) :
    (RenderMugHandle st lm).draws
      = st.draws ++ [⟨SceneObjectId.mugHandle, MeshKind.torusMesh⟩] := by
  simp [RenderMugHandle, draws_setTransformations, draws_setShaderMaterial,
        draws_setShaderTexture, draws_setTextureUVScale]

theorem draws_renderMonitorScreen (st : SceneState) (lm : OBJECT_MATERIAL) :
    (RenderMonitorScreen st lm).draws
      = st.draws ++ [⟨SceneObjectId.monitorScreen, MeshKind.boxMesh⟩] := by
  simp [RenderMonitorScreen, draws_setTransformations, draws_setShaderMaterial,
        draws_setShaderTexture, draws_setTextureUVScale]

theorem draws_renderMonitorStand (st : SceneState) (lm : OBJECT_MATERIAL) :
    (RenderMonitorStand st lm).draws
      = st.draws ++ [⟨SceneObjectId.monitorStand, MeshKind.boxMesh⟩] := by
  simp [RenderMonitorStand, draws_setTransformations, draws_setShaderMaterial,
        draws_setShaderTexture, draws_setTextureUVScale]

theorem draws_renderMonitorBase (st : SceneState) (lm : OBJECT_MATERIAL) :
    (RenderMonitorBase st lm).draws
      = st.draws ++ [⟨SceneObjectId.monitorBase, MeshKind.taperedCylinderMesh⟩] := by
  simp [RenderMonitorBase, draws_setTransformations, draws_setShaderMaterial,
        draws_setShaderTexture, draws_setTextureUVScale]

theorem draws_renderBook1 (st : SceneState) :
    (RenderBook1 st).draws = st.draws ++ [⟨SceneObjectId.book1, MeshKind.boxMesh⟩] := by
  simp [RenderBook1, draws_setTransformations, draws_setShaderColor]

theorem draws_renderBook2 (st : SceneState) :
    (RenderBook2 st).draws = st.draws ++ [⟨SceneObjectId.book2, MeshKind.boxMesh⟩] := by
  simp [RenderBook2, draws_setTransformations, draws_setShaderColor]

theorem draws_renderKeyboard (st : SceneState) :
    (RenderKeyboard st).draws = st.draws ++ [⟨SceneObjectId.keyboard, MeshKind.boxMesh⟩] := by
  simp [RenderKeyboard, draws_setTransformations, draws_setShaderColor]

theorem draws_renderMouse (st : SceneState) :
    (RenderMouse st).draws = st.draws ++ [⟨SceneObjectId.mouse, MeshKind.sphereMesh⟩] := by
  simp [RenderMouse, draws_setTransformations, draws_setShaderColor]

/-- C8: every invocation of `RenderScene` appends exactly ten draw events,
in the fixed order plane, mug body, mug handle, monitor screen, monitor
base, monitor stand, mouse, keyboard, book 1, book 2; in particular every
scene object is rendered exactly once. -/
theorem renderScene_fixed_order_each_object_once
    (st : SceneState) (localMaterial : OBJECT_MATERIAL) :
    (RenderScene st localMaterial).draws = st.draws ++
      [⟨SceneObjectId.plane, MeshKind.planeMesh⟩,
       ⟨SceneObjectId.mugBody, MeshKind.taperedCylinderMesh⟩,
       ⟨SceneObjectId.mugHandle, MeshKind.torusMesh⟩,
       ⟨SceneObjectId.monitorScreen, MeshKind.boxMesh⟩,
       ⟨SceneObjectId.monitorBase, MeshKind.taperedCylinderMesh⟩,
       ⟨SceneObjectId.monitorStand, MeshKind.boxMesh⟩,
       ⟨SceneObjectId.mouse, MeshKind.sphereMesh⟩,
       ⟨SceneObjectId.keyboard, MeshKind.boxMesh⟩,
       ⟨SceneObjectId.book1, MeshKind.boxMesh⟩,
       ⟨SceneObjectId.book2, MeshKind.boxMesh⟩] ∧
    ∀ o : SceneObjectId,
      (((RenderScene st localMaterial).draws.drop st.draws.length).map
        DrawEvent.obj).count o = 1 := by
  have h : (RenderScene st localMaterial).draws = st.draws ++
      [⟨SceneObjectId.plane, MeshKind.planeMesh⟩,
       ⟨SceneObjectId.mugBody, MeshKind.taperedCylinderMesh⟩,
       ⟨SceneObjectId.mugHandle, MeshKind.torusMesh⟩,
       ⟨SceneObjectId.monitorScreen, MeshKind.boxMesh⟩,
       ⟨SceneObjectId.monitorBase, MeshKind.taperedCylinderMesh⟩,
       ⟨SceneObjectId.monitorStand, MeshKind.boxMesh⟩,
       ⟨SceneObjectId.mouse, MeshKind.sphereMesh⟩,
       ⟨SceneObjectId.keyboard, MeshKind.boxMesh⟩,
       ⟨SceneObjectId.book1, MeshKind.boxMesh⟩,
       ⟨SceneObjectId.book2, MeshKind.boxMesh⟩] := by
    simp [RenderScene, draws_renderPlane, draws_renderMugBody, draws_renderMugHandle,
          draws_renderMonitorScreen, draws_renderMonitorBase, draws_renderMonitorStand,
          draws_renderMouse, draws_renderKeyboard, draws_renderBook1, draws_renderBook2]
  refine ⟨h, fun o => ?_⟩
  rw [h, List.drop_left]
  cases o <;> rfl

/-! ## C5: the published model matrix and its action on a point -/

theorem radians_zero : radians 0 = 0 := by simp [radians]

theorem glmRotateX_zero : glmRotateX 0 = 1 := by
  ext i j
  fin_cases i <;> fin_cases j <;>
    simp [glmRotateX, Matrix.one_apply, Matrix.vecHead, Matrix.vecTail]

theorem glmRotateY_zero : glmRotateY 0 = 1 := by
  ext i j
  fin_cases i <;> fin_cases j <;>
    simp [glmRotateY, Matrix.one_apply, Matrix.vecHead, Matrix.vecTail]

theorem glmRotateZ_zero : glmRotateZ 0 = 1 := by
  ext i j
  fin_cases i <;> fin_cases j <;>
    simp [glmRotateZ, Matrix.one_apply, Matrix.vecHead, Matrix.vecTail]

/-- C5: with a non-null shader sink, `SetTransformations` publishes the
model matrix `translation * rotationX * rotationY * rotationZ * scale`
(angles in degrees, converted to radians) to the `"model"` uniform, for
every scale, rotation and position; and the matrix so published for scale
(2,1,1), zero rotation and translation (3,0,0) maps the local point
(1,0,0) (homogeneous (1,0,0,1)) to the world point (5,0,0). -/
theorem setTransformations_publishes_model_matrix
    (u : List UniformWrite) (t : List TextureEntry) (m : List OBJECT_MATERIAL)
    (d : List DrawEvent) (s : ℝ × ℝ × ℝ) (xd yd zd : ℝ) (p : ℝ × ℝ × ℝ) :
    uniformValue (SetTransformations ⟨true, u, t, m, d⟩ s xd yd zd p) "model"
      = some (UniformValue.mat4
          (glmTranslate p * glmRotateX (radians xd) * glmRotateY (radians yd) *
           glmRotateZ (radians zd) * glmScale s)) ∧
    (glmTranslate (3, 0, 0) * glmRotateX (radians 0) * glmRotateY (radians 0) *
     glmRotateZ (radians 0) * glmScale (2, 1, 1)).mulVec ![1, 0, 0, 1]
      = ![5, 0, 0, 1] := by
  constructor
  · simp [SetTransformations, uniformValue, List.find?]
  · rw [radians_zero, glmRotateX_zero, glmRotateY_zero, glmRotateZ_zero,
        mul_one, mul_one, mul_one, ← Matrix.mulVec_mulVec]
    have h1 : (glmScale (2, 1, 1)).mulVec ![1, 0, 0, 1] = ![2, 0, 0, 1] := by
      funext i
      fin_cases i <;>
        simp [glmScale, Matrix.mulVec, Matrix.dotProduct, Fin.sum_univ_four]
    rw [h1]
    funext i
    fin_cases i <;>
      norm_num [glmTranslate, Matrix.mulVec, Matrix.dotProduct, Fin.sum_univ_four]

end SceneMgr
